import Mathlib

/-!
# Verification of the Java binder bridge (`core/jni/android_util_Binder.cpp`)

Shallow embedding of the proxy/uniquing, transact and death-notification
logic of `android_util_Binder.cpp`.  JNI object references are modelled as
natural-number tokens; the kernel binder transport (libbinder, an external
collaborator in the spec) enters only through explicit status parameters.
-/

/-- The `status_t` codes that `android_util_Binder.cpp` distinguishes.
Each named constructor stands for the like-named constant of
`utils/Errors.h`; `otherCode` stands for any code not named in the
switch of `signalExceptionForError` (these all take its `default` branch,
as does `NO_ERROR`, which is never passed to it). -/
inductive Status where
  | NO_ERROR
  | UNKNOWN_ERROR
  | NO_MEMORY
  | INVALID_OPERATION
  | BAD_VALUE
  | BAD_INDEX
  | BAD_TYPE
  | NAME_NOT_FOUND
  | PERMISSION_DENIED
  | NOT_ENOUGH_DATA
  | NO_INIT
  | ALREADY_EXISTS
  | DEAD_OBJECT
  | UNKNOWN_TRANSACTION
  | FAILED_TRANSACTION
  | FDS_NOT_ALLOWED
  | UNEXPECTED_NULL
  | negEBADF
  | negENFILE
  | negEMFILE
  | negEFBIG
  | negENOSPC
  | negESPIPE
  | negEROFS
  | negEMLINK
  | otherCode (raw : Int)
  deriving DecidableEq, Repr

/-- A thrown Java exception, identified by the class name passed to
`jniThrowException` / `jniThrowNullPointerException`. -/
structure JException where
  cls : String
  deriving DecidableEq, Repr

/-- Model of `signalExceptionForError` (android_util_Binder.cpp, lines 725-846):
maps a non-success `status_t` to the Java exception it throws.  Every
branch of the source switch throws, so the model is a total function into
`JException` — no error code is ever swallowed. -/
def signalExceptionForError (err : Status) (canThrowRemoteException : Bool)
    (parcelSize : Nat) : JException :=
  match err with
  | .UNKNOWN_ERROR => ⟨"java/lang/RuntimeException"⟩
  | .NO_MEMORY => ⟨"java/lang/OutOfMemoryError"⟩
  | .INVALID_OPERATION => ⟨"java/lang/UnsupportedOperationException"⟩
  | .BAD_VALUE => ⟨"java/lang/IllegalArgumentException"⟩
  | .BAD_INDEX => ⟨"java/lang/IndexOutOfBoundsException"⟩
  | .BAD_TYPE => ⟨"java/lang/IllegalArgumentException"⟩
  | .NAME_NOT_FOUND => ⟨"java/util/NoSuchElementException"⟩
  | .PERMISSION_DENIED => ⟨"java/lang/SecurityException"⟩
  | .NOT_ENOUGH_DATA => ⟨"android/os/ParcelFormatException"⟩
  | .NO_INIT => ⟨"java/lang/RuntimeException"⟩
  | .ALREADY_EXISTS => ⟨"java/lang/RuntimeException"⟩
  | .DEAD_OBJECT =>
      if canThrowRemoteException then ⟨"android/os/DeadObjectException"⟩
      else ⟨"java/lang/RuntimeException"⟩
  | .UNKNOWN_TRANSACTION => ⟨"java/lang/RuntimeException"⟩
  | .FAILED_TRANSACTION =>
      if canThrowRemoteException && parcelSize > 200 * 1024 then
        ⟨"android/os/TransactionTooLargeException"⟩
      else if canThrowRemoteException then ⟨"android/os/DeadObjectException"⟩
      else ⟨"java/lang/RuntimeException"⟩
  | .FDS_NOT_ALLOWED => ⟨"java/lang/RuntimeException"⟩
  | .UNEXPECTED_NULL => ⟨"java/lang/NullPointerException"⟩
  | .negEBADF => ⟨"java/lang/RuntimeException"⟩
  | .negENFILE => ⟨"java/lang/RuntimeException"⟩
  | .negEMFILE => ⟨"java/lang/RuntimeException"⟩
  | .negEFBIG => ⟨"java/lang/RuntimeException"⟩
  | .negENOSPC => ⟨"java/lang/RuntimeException"⟩
  | .negESPIPE => ⟨"java/lang/RuntimeException"⟩
  | .negEROFS => ⟨"java/lang/RuntimeException"⟩
  | .negEMLINK => ⟨"java/lang/RuntimeException"⟩
  | _ =>
      if canThrowRemoteException then ⟨"android/os/RemoteException"⟩
      else ⟨"java/lang/RuntimeException"⟩

/-- Outcome of one call of `android_os_BinderProxy_transact`. -/
structure TransactResult where
  /-- the `jboolean` returned to Java -/
  ret : Bool
  /-- the pending exception, if one was raised -/
  thrown : Option JException
  /-- how many times `target->transact` was invoked on the channel -/
  channelCalls : Nat
  deriving DecidableEq, Repr

/-- Model of `android_os_BinderProxy_transact` (lines 1235-1292).  `dataObjNull`
models a null `data` parcel argument, `targetNull` a finalized proxy;
`err` is the status the underlying channel (`target->transact`) reports,
`parcelSize` is `data->dataSize()`. -/
def BinderProxy_transact (dataObjNull targetNull : Bool) (err : Status)
    (parcelSize : Nat) : TransactResult :=
  if dataObjNull then ⟨false, some ⟨"java/lang/NullPointerException"⟩, 0⟩
  else if targetNull then
    ⟨false, some ⟨"java/lang/IllegalStateException"⟩, 0⟩
  else if err = .NO_ERROR then ⟨true, none, 1⟩
  else if err = .UNKNOWN_TRANSACTION then ⟨false, none, 1⟩
  else ⟨false, some (signalExceptionForError err true parcelSize), 1⟩

/-- Result of the in-process `execTransact` up-call made by
`JavaBBinder::onTransact`: it either returns a `jboolean`, or leaves a
pending Java exception (`isError` = instance of `java.lang.Error`). -/
inductive ExecResult where
  | ok (res : Bool)
  | exn (isError : Bool)
  deriving DecidableEq, Repr

/-- What becomes of the thread after `report_exception` (lines 270-297):
either control returns to the dispatcher, or — for a `java.lang.Error` —
`report_java_lang_error` runs the uncaught-exception machinery /
`FatalError` and the hosting process terminates. -/
inductive Fate where
  | proceed
  | processDeath
  deriving DecidableEq, Repr

/-- Model of `report_exception` (lines 270-297): logs the exception; when it is an
instance of `java.lang.Error`, hands it to `report_java_lang_error`,
which never returns (uncaught-exception dispatch or `FatalError`). -/
def report_exception (excepIsError : Bool) : Fate :=
  if excepIsError then .processDeath else .proceed

/-- Outcome of one dispatched transaction in `JavaBBinder::onTransact`. -/
inductive OnTransactOutcome where
  | returns (s : Status)
  | processDeath
  deriving DecidableEq, Repr

/-- Model of `JavaBBinder::onTransact` (lines 331-379): calls `execTransact`; an
uncaught exception is passed to `report_exception` and `res` is forced to
`JNI_FALSE`; the status returned to the channel is `NO_ERROR` when
`res != JNI_FALSE`, else `UNKNOWN_TRANSACTION`. -/
def JavaBBinder_onTransact (exec : ExecResult) : OnTransactOutcome :=
  match exec with
  | .ok res => .returns (if res then .NO_ERROR else .UNKNOWN_TRANSACTION)
  | .exn isError =>
      match report_exception isError with
      | .processDeath => .processDeath
      | .proceed => .returns .UNKNOWN_TRANSACTION

/-!
## Death recipients

`JavaDeathRecipient` holds a strong global ref `mObject` to the Java
`DeathRecipient` until `binderDied` delivers, after which it is demoted to
the weak ref `mObjectWeak`.  Java objects are tokens (`Nat`); a weak ref
that the GC has cleared is `none`. -/

/-- One `JavaDeathRecipient` (lines 446-553).  `jid` is the native object
identity (the `sp<JavaDeathRecipient>` pointer), used by
`DeathRecipientList::remove`'s pointer comparison. -/
structure JDR where
  jid : Nat
  /-- strong GlobalRef to the Java-side recipient; cleared on `binderDied` -/
  mObject : Option Nat
  /-- weak ref to the same recipient after `binderDied`; `none` also models
  a weak ref already cleared by the GC -/
  mObjectWeak : Option Nat
  deriving DecidableEq, Repr

/-- The `JavaDeathRecipient` constructor state: strong ref to the
recipient token, no weak ref yet. -/
def JDR.make (jid tok : Nat) : JDR := ⟨jid, some tok, none⟩

/-- Model of `JavaDeathRecipient::binderDied` (lines 462-489): if the strong ref is
still present, deliver `sendDeathNotice` and — provided the containing
`DeathRecipientList` can still be promoted (`listAlive`) — demote the
strong ref to a weak one.  Returns the updated recipient and whether a
notification was delivered. -/
def JDR.binderDied (listAlive : Bool) (j : JDR) : JDR × Bool :=
  match j.mObject with
  | none => (j, false)
  | some o =>
      (if listAlive then { j with mObject := none, mObjectWeak := some o }
       else j, true)

/-- Model of `JavaDeathRecipient::matches` (lines 502-513): compare against the
strong ref while it is held, else against (a local ref promoted from) the
weak ref; `IsSameObject` against a GC-cleared weak ref (null) is false. -/
def JDR.matches (obj : Nat) (j : JDR) : Bool :=
  match j.mObject with
  | some o => obj == o
  | none =>
      match j.mObjectWeak with
      | some w => obj == w
      | none => false

/-- Model of `DeathRecipientList::find` (lines 596-606): first list entry whose
`matches(recipient)` holds. -/
def DRL.find (obj : Nat) (l : List JDR) : Option JDR :=
  l.find? (JDR.matches obj)

/-- Model of `DeathRecipientList::remove` (lines 583-594): erase the first entry
that is pointer-equal to the given recipient. -/
def DRL.remove (j : JDR) (l : List JDR) : List JDR :=
  l.eraseP (fun e => e.jid == j.jid)

/-- Fold `binderDied` over a sequence of peer-death events (each flagged
with whether the containing list was still promotable at that moment),
counting delivered notifications. -/
def JDR.diedEvents : JDR → List Bool → JDR × Nat
  | j, [] => (j, 0)
  | j, a :: rest =>
      let st := j.binderDied a
      let fin := st.1.diedEvents rest
      (fin.1, (if st.2 then 1 else 0) + fin.2)

/-- Model of `android_os_BinderProxy_linkToDeath` (lines 1294-1318).  `recipient` is
the Java recipient argument (`none` = null); `targetLocal` is
`target->localBinder() != nullptr`; `chanErr` is what the channel's
`target->linkToDeath` returns when it is consulted; `nextJid` allocates
the native identity of a newly constructed `JavaDeathRecipient` (whose
constructor adds it to the list).  Returns the updated list, the pending
exception if any, and the next free identity. -/
def BinderProxy_linkToDeath (recipient : Option Nat) (targetLocal : Bool)
    (chanErr : Status) (nextJid : Nat) (drl : List JDR) :
    List JDR × Option JException × Nat :=
  match recipient with
  | none => (drl, some ⟨"java/lang/NullPointerException"⟩, nextJid)
  | some r =>
      if targetLocal then (drl, none, nextJid)
      else
        let j := JDR.make nextJid r
        let drl1 := drl ++ [j]
        if chanErr = .NO_ERROR then (drl1, none, nextJid + 1)
        else (DRL.remove j drl1,
              some (signalExceptionForError chanErr true 0), nextJid + 1)

/-- Model of `android_os_BinderProxy_unlinkToDeath` (lines 1320-1366).  `chanErr` is
what the channel's `target->unlinkToDeath` returns when consulted (for a
peer that already died, libbinder reports `DEAD_OBJECT`); `chanReturnsDr`
is whether it hands back the promotable death recipient in `&dr`.
Returns the updated list, the `jboolean` result, and the pending
exception if any. -/
def BinderProxy_unlinkToDeath (recipient : Option Nat)
    (targetNull targetLocal : Bool) (chanErr : Status)
    (chanReturnsDr : Bool) (drl : List JDR) :
    List JDR × Bool × Option JException :=
  match recipient with
  | none => (drl, false, some ⟨"java/lang/NullPointerException"⟩)
  | some r =>
      if targetNull then (drl, false, none)
      else if targetLocal then (drl, false, none)
      else
        match DRL.find r drl with
        | none => (drl, false, some ⟨"java/util/NoSuchElementException"⟩)
        | some j =>
            let drl1 :=
              if chanErr = .NO_ERROR ∧ chanReturnsDr then DRL.remove j drl
              else drl
            if chanErr = .NO_ERROR ∨ chanErr = .DEAD_OBJECT then
              (drl1, true, none)
            else (drl1, false, some ⟨"java/util/NoSuchElementException"⟩)

/-!
## Proxy uniquing (`javaObjectForIBinder` / `ibinderForJavaObject`)

Native `IBinder` values and Java objects are tokens.  The whole remote
path of `javaObjectForIBinder` runs under `gProxyLock`, so a concurrent
execution is an arbitrary interleaving of atomic resolves, modelled below
as a sequence. -/

/-- A native `sp<IBinder>` value: either a `JavaBBinder` created by
`ibinderForJavaObject` for a Java `Binder` object (identified by the
Java object it wraps), or a native proxy for a remote handle. -/
inductive IBinderVal where
  | javaBBinder (obj : Nat)
  | remoteBinder (handle : Nat)
  deriving DecidableEq, Repr

/-- A `jobject` as far as the binder bridge distinguishes them: an
`android.os.Binder` instance, an `android.os.BinderProxy` instance
(identified by its Java object identity `pid`), or anything else. -/
inductive JObj where
  | javaBinder (tok : Nat)
  | binderProxy (pid : Nat)
  | otherObject
  deriving DecidableEq, Repr

/-- A live `BinderProxy`'s state as the native code sees it: its Java
object identity and its `mNativeData` field (the identity of its
`BinderProxyNativeData` node). -/
structure BinderProxyObj where
  pid : Nat
  dataId : Nat
  deriving DecidableEq, Repr

/-- The process-wide uniquing state guarded by `gProxyLock`:
`proxyMap` is the live `IBinder` → `BinderProxy` map maintained by the
Java side's `getInstance`; `dataObject` records each installed
`BinderProxyNativeData` node's `mObject` field; `cache` is
`gNativeDataCache`; `allocCount` counts `new BinderProxyNativeData()`
executions; `numProxies` is `gNumProxies`. -/
structure ProxyState where
  proxyMap : List (Nat × BinderProxyObj)
  dataObject : List (Nat × Nat)
  cache : Option Nat
  nextPid : Nat
  nextDataId : Nat
  numProxies : Nat
  allocCount : Nat
  deriving DecidableEq, Repr

/-- Modelled from the spec: `BinderProxy.getInstance(nativeData, iBinder)`
(the Java half of the uniquing table, `core/java/android/os/BinderProxy.java`,
not under `src/`).  Per the spec and the doc comment on
`javaObjectForIBinder` (lines 641-643): if a live `BinderProxy` for this
`IBinder` already exists it is returned and the passed node is unused;
otherwise a new `BinderProxy` owning the passed node is created and
registered. -/
def BinderProxy_getInstance (dataId handle : Nat) (st : ProxyState) :
    BinderProxyObj × ProxyState :=
  match st.proxyMap.find? (fun e => e.1 == handle) with
  | some e => (e.2, st)
  | none =>
      let bp : BinderProxyObj := ⟨st.nextPid, dataId⟩
      (bp, { st with proxyMap := (handle, bp) :: st.proxyMap,
                     nextPid := st.nextPid + 1 })

/-- Model of `javaObjectForIBinder` (lines 644-688): a `JavaBBinder` short-circuits
to its own Java object before the lock is taken; otherwise, under
`gProxyLock`, take the cached `BinderProxyNativeData` node or allocate
one, ask `getInstance` for the proxy, and compare the returned proxy's
`mNativeData` with the node we passed: equal means a new proxy was
constructed (install `mOrgue`/`mObject`, consume the cache, count it),
unequal means an existing proxy was found (put the node back in the
cache). -/
def javaObjectForIBinder (val : Option IBinderVal) (st : ProxyState) :
    Option JObj × ProxyState :=
  match val with
  | none => (none, st)
  | some (.javaBBinder obj) => (some (.javaBinder obj), st)
  | some (.remoteBinder h) =>
      let pick : Nat × ProxyState :=
        match st.cache with
        | some d => (d, st)
        | none => (st.nextDataId,
            { st with nextDataId := st.nextDataId + 1,
                      allocCount := st.allocCount + 1 })
      let res := BinderProxy_getInstance pick.1 h pick.2
      if res.1.dataId == pick.1 then
        (some (.binderProxy res.1.pid),
         { res.2 with dataObject := (pick.1, h) :: res.2.dataObject,
                      cache := none,
                      numProxies := res.2.numProxies + 1 })
      else
        (some (.binderProxy res.1.pid), { res.2 with cache := some pick.1 })

/-- Model of `ibinderForJavaObject` (lines 690-708): null maps to null; a `Binder`
instance yields its holder's `JavaBBinder` (which wraps that very
object); a `BinderProxy` yields its native data's `mObject`; anything
else logs a warning and yields null. -/
def ibinderForJavaObject (obj : Option JObj) (st : ProxyState) :
    Option IBinderVal :=
  match obj with
  | none => none
  | some (.javaBinder tok) => some (.javaBBinder tok)
  | some (.binderProxy pid) =>
      match st.proxyMap.find? (fun e => e.2.pid == pid) with
      | some e => (st.dataObject.lookup e.2.dataId).map IBinderVal.remoteBinder
      | none => none
  | some .otherObject => none

/-- Well-formedness of the uniquing state: handles are unique keys, every
installed node identity and proxy identity is below its allocator, and
the cached node — being unused by construction — is fresh and not owned
by any live proxy. -/
def ProxyState.WF (st : ProxyState) : Prop :=
  (st.proxyMap.map Prod.fst).Nodup ∧
  (∀ e ∈ st.proxyMap, e.2.dataId < st.nextDataId ∧ e.2.pid < st.nextPid) ∧
  (∀ c, st.cache = some c →
    c < st.nextDataId ∧ ∀ e ∈ st.proxyMap, e.2.dataId ≠ c)

/-- The empty uniquing state at process start. -/
def ProxyState.init : ProxyState :=
  { proxyMap := [], dataObject := [], cache := none, nextPid := 0,
    nextDataId := 0, numProxies := 0, allocCount := 0 }

/-- Resolving a run of remote handles one call at a time (the source
serializes all of them behind `gProxyLock`, so any concurrent execution
is one such sequence). -/
def resolveSeq : List Nat → ProxyState → List (Option JObj) × ProxyState
  | [], st => ([], st)
  | h :: rest, st =>
      let r := javaObjectForIBinder (some (.remoteBinder h)) st
      let rs := resolveSeq rest r.2
      (r.1 :: rs.1, rs.2)

/-- C6: transact returns `true` on `NO_ERROR`, `false` with no exception on
`UNKNOWN_TRANSACTION`, and for every other channel error raises the mapped
exception, returns `false`, and calls the channel exactly once. -/
theorem transact_error_policy (err : Status) (ps : Nat)
    (hne : err ≠ Status.NO_ERROR) (hnu : err ≠ Status.UNKNOWN_TRANSACTION) :
    BinderProxy_transact false false Status.NO_ERROR ps = ⟨true, none, 1⟩ ∧
    BinderProxy_transact false false Status.UNKNOWN_TRANSACTION ps
      = ⟨false, none, 1⟩ ∧
    BinderProxy_transact false false err ps
      = ⟨false, some (signalExceptionForError err true ps), 1⟩ := by
  refine ⟨rfl, rfl, ?_⟩
  simp [BinderProxy_transact, hne, hnu]

/-- Witness for `transact_error_policy` at `err = DEAD_OBJECT`. -/
theorem transact_error_policy_witness :
    BinderProxy_transact false false Status.DEAD_OBJECT 0
      = ⟨false, some ⟨"android/os/DeadObjectException"⟩, 1⟩ :=
  (transact_error_policy Status.DEAD_OBJECT 0 (by decide) (by decide)).2.2

/-- C7: an ordinary uncaught exception in a dispatched handler is converted
to the `UNKNOWN_TRANSACTION` error result and the dispatcher survives; an
uncaught `java.lang.Error` is not converted and the process terminates. -/
theorem onTransact_fault_policy :
    JavaBBinder_onTransact (.exn false)
      = .returns Status.UNKNOWN_TRANSACTION ∧
    JavaBBinder_onTransact (.exn true) = .processDeath := by
  exact ⟨rfl, rfl⟩

/-- After a recipient's strong ref has been cleared, no further death
event delivers a notification. -/
theorem JDR.diedEvents_cleared (jid : Nat) (w : Option Nat)
    (evs : List Bool) :
    (JDR.diedEvents ⟨jid, none, w⟩ evs).1 = ⟨jid, none, w⟩ ∧
    (JDR.diedEvents ⟨jid, none, w⟩ evs).2 = 0 := by
  induction evs with
  | nil => exact ⟨rfl, rfl⟩
  | cons a rest ih =>
      simpa [JDR.diedEvents, JDR.binderDied] using ih

/-- C3: over any sequence of peer-death events during which the containing
list stays promotable, a linked watcher is notified at most once; the
first delivery clears the strong reference, so the event after it
delivers nothing. -/
theorem death_notice_at_most_once (jid tok : Nat) (evs : List Bool)
    (halive : ∀ b ∈ evs, b = true) :
    (JDR.diedEvents (JDR.make jid tok) evs).2 ≤ 1 ∧
    (JDR.binderDied true (JDR.make jid tok)
      = (⟨jid, none, some tok⟩, true)) ∧
    (∀ al : Bool,
      ((JDR.binderDied true (JDR.make jid tok)).1.binderDied al).2
        = false) := by
  refine ⟨?_, rfl, fun al => by simp [JDR.binderDied, JDR.make]⟩
  cases evs with
  | nil => simp [JDR.diedEvents]
  | cons a rest =>
      have ha : a = true := halive a (by simp)
      subst ha
      have h0 := JDR.diedEvents_cleared jid (some tok) rest
      simp [JDR.diedEvents, JDR.binderDied, JDR.make, h0.2]

/-- Witness for `death_notice_at_most_once`: two successive death events
deliver exactly one notification. -/
theorem death_notice_at_most_once_witness :
    (JDR.diedEvents (JDR.make 0 5) [true, true]).2 ≤ 1 :=
  (death_notice_at_most_once 0 5 [true, true] (by decide)).1

/-- C4: after the peer has died and the watcher was notified, the watcher
remains matchable through its retained weak ref, and `unlinkToDeath` with
the same identity returns `true` with no exception (the channel reports
`DEAD_OBJECT` for a dead peer), leaving the list unchanged. -/
theorem unlink_after_death_idempotent (r jid : Nat) (drl : List JDR)
    (b : Bool) (hfind : (DRL.find r drl).isSome) :
    JDR.matches r ((JDR.binderDied true (JDR.make jid r)).1) = true ∧
    BinderProxy_unlinkToDeath (some r) false false Status.DEAD_OBJECT b drl
      = (drl, true, none) := by
  constructor
  · simp [JDR.binderDied, JDR.make, JDR.matches]
  · obtain ⟨j, hj⟩ := Option.isSome_iff_exists.mp hfind
    simp [BinderProxy_unlinkToDeath, hj]

/-- Witness for `unlink_after_death_idempotent`: a notified watcher (weak
form) is found and unlinked successfully after peer death. -/
theorem unlink_after_death_idempotent_witness :
    BinderProxy_unlinkToDeath (some 5) false false Status.DEAD_OBJECT false
      [(JDR.binderDied true (JDR.make 0 5)).1]
      = ([(JDR.binderDied true (JDR.make 0 5)).1], true, none) :=
  (unlink_after_death_idempotent 5 0 [(JDR.binderDied true (JDR.make 0 5)).1]
    false (by decide)).2

/-- C5: `unlinkToDeath` with a recipient that matches no registered
watcher (peer alive, so the channel is never consulted) throws
`NoSuchElementException`, returns `false`, and leaves the list
unchanged. -/
theorem unlink_never_linked_not_found (r : Nat) (drl : List JDR)
    (chanErr : Status) (b : Bool) (hnone : DRL.find r drl = none) :
    BinderProxy_unlinkToDeath (some r) false false chanErr b drl
      = (drl, false, some ⟨"java/util/NoSuchElementException"⟩) := by
  simp [BinderProxy_unlinkToDeath, hnone]

/-- Witness for `unlink_never_linked_not_found` on a list holding one
unrelated watcher. -/
theorem unlink_never_linked_not_found_witness :
    BinderProxy_unlinkToDeath (some 9) false false Status.NO_ERROR true
      [JDR.make 0 5]
      = ([JDR.make 0 5], false,
         some ⟨"java/util/NoSuchElementException"⟩) :=
  unlink_never_linked_not_found 9 [JDR.make 0 5] Status.NO_ERROR true
    (by decide)

/-- C9: `linkToDeath` on a proxy whose target is a local (loop-back)
binder is a no-op: no watcher is registered, the channel is never asked
to link (the result is the same for every channel status), no exception
is raised, and the list is unchanged. -/
theorem linkToDeath_local_noop (r nextJid : Nat) (drl : List JDR)
    (chanErr : Status) :
    BinderProxy_linkToDeath (some r) true chanErr nextJid drl
      = (drl, none, nextJid) := by
  simp [BinderProxy_linkToDeath]

/-- C10: a null recipient makes `linkToDeath` throw
`NullPointerException` and `unlinkToDeath` throw it and return `false`,
in both cases before any lookup or mutation: the list and allocation
state are returned unchanged. -/
theorem null_recipient_npe (targetNull targetLocal b : Bool)
    (chanErr chanErr2 : Status) (nextJid : Nat) (drl : List JDR) :
    BinderProxy_linkToDeath none targetLocal chanErr nextJid drl
      = (drl, some ⟨"java/lang/NullPointerException"⟩, nextJid) ∧
    BinderProxy_unlinkToDeath none targetNull targetLocal chanErr2 b drl
      = (drl, false, some ⟨"java/lang/NullPointerException"⟩) :=
  ⟨rfl, rfl⟩

/-- C2: exposing a local Java `Binder` gives a `JavaBBinder` wrapping it,
and resolving that `JavaBBinder` back returns the original Java object —
never a `BinderProxy` — leaving the uniquing state (table, cache,
counters) completely untouched. -/
theorem local_roundtrip_no_proxy (st : ProxyState) (tok : Nat) :
    ibinderForJavaObject (some (.javaBinder tok)) st
      = some (.javaBBinder tok) ∧
    javaObjectForIBinder (some (.javaBBinder tok)) st
      = (some (.javaBinder tok), st) ∧
    (∀ p : Nat,
      (javaObjectForIBinder (some (.javaBBinder tok)) st).1
        ≠ some (.binderProxy p)) := by
  exact ⟨rfl, rfl, fun p => by simp [javaObjectForIBinder]⟩

/-- Resolving a handle that already has a live proxy, with the scratch
cache populated: the existing proxy is returned and the state — cache
included — is completely unchanged. -/
theorem resolve_hit_cached (st : ProxyState) (h d : Nat)
    (e : Nat × BinderProxyObj) (hwf : st.WF)
    (hl : st.proxyMap.find? (fun x => x.1 == h) = some e)
    (hc : st.cache = some d) :
    javaObjectForIBinder (some (.remoteBinder h)) st
      = (some (.binderProxy e.2.pid), st) := by
  have hmem : e ∈ st.proxyMap := List.mem_of_find?_eq_some hl
  have hne : (e.2.dataId == d) = false := by
    simpa using (hwf.2.2 d hc).2 e hmem
  simp only [javaObjectForIBinder, BinderProxy_getInstance, hl, hc, hne,
    Bool.false_eq_true, if_false]
  rw [← hc]

/-- Resolving a handle that already has a live proxy, with the scratch
cache empty: the existing proxy is returned; one node is allocated and
becomes the new cache entry; the table is unchanged. -/
theorem resolve_hit_uncached (st : ProxyState) (h : Nat)
    (e : Nat × BinderProxyObj) (hwf : st.WF)
    (hl : st.proxyMap.find? (fun x => x.1 == h) = some e)
    (hc : st.cache = none) :
    javaObjectForIBinder (some (.remoteBinder h)) st
      = (some (.binderProxy e.2.pid),
         { st with cache := some st.nextDataId,
                   nextDataId := st.nextDataId + 1,
                   allocCount := st.allocCount + 1 }) := by
  have hmem : e ∈ st.proxyMap := List.mem_of_find?_eq_some hl
  have hne : (e.2.dataId == st.nextDataId) = false := by
    simpa using Nat.ne_of_lt (hwf.2.1 e hmem).1
  simp only [javaObjectForIBinder, BinderProxy_getInstance, hl, hc, hne,
    Bool.false_eq_true, if_false]

/-- Resolving a handle with no live proxy: a new proxy is constructed
from the cached node (or a freshly allocated one if the cache is empty),
registered in the table, and the cache is left consumed (empty). -/
theorem resolve_miss (st : ProxyState) (h : Nat)
    (hl : st.proxyMap.find? (fun x => x.1 == h) = none) :
    javaObjectForIBinder (some (.remoteBinder h)) st
      = (some (.binderProxy st.nextPid),
         { st with
             proxyMap := (h, ⟨st.nextPid, st.cache.getD st.nextDataId⟩)
               :: st.proxyMap,
             dataObject := (st.cache.getD st.nextDataId, h) :: st.dataObject,
             cache := none,
             nextPid := st.nextPid + 1,
             nextDataId :=
               if st.cache.isSome then st.nextDataId else st.nextDataId + 1,
             numProxies := st.numProxies + 1,
             allocCount :=
               st.allocCount + if st.cache.isSome then 0 else 1 }) := by
  cases hc : st.cache with
  | none => simp [javaObjectForIBinder, BinderProxy_getInstance, hl, hc]
  | some d => simp [javaObjectForIBinder, BinderProxy_getInstance, hl, hc]

/-- One resolve preserves well-formedness of the uniquing state. -/
theorem resolve_wf (st : ProxyState) (h : Nat) (hwf : st.WF) :
    ((javaObjectForIBinder (some (.remoteBinder h)) st).2).WF := by
  obtain ⟨hnd, hbound, hcache⟩ := hwf
  cases hfind : st.proxyMap.find? (fun x => x.1 == h) with
  | some e =>
      cases hc : st.cache with
      | some d =>
          rw [resolve_hit_cached st h d e ⟨hnd, hbound, hcache⟩ hfind hc]
          exact ⟨hnd, hbound, hcache⟩
      | none =>
          rw [resolve_hit_uncached st h e ⟨hnd, hbound, hcache⟩ hfind hc]
          refine ⟨hnd, fun e' he' =>
            ⟨Nat.lt_succ_of_lt (hbound e' he').1, (hbound e' he').2⟩, ?_⟩
          intro c hcc
          simp only [Option.some.injEq] at hcc
          subst hcc
          exact ⟨Nat.lt_succ_self _,
            fun e' he' => Nat.ne_of_lt (hbound e' he').1⟩
  | none =>
      rw [resolve_miss st h hfind]
      have hnotmem : h ∉ st.proxyMap.map Prod.fst := by
        intro hmm
        obtain ⟨e, he, hfst⟩ := List.mem_map.mp hmm
        have := List.find?_eq_none.mp hfind e he
        simp [hfst] at this
      refine ⟨List.nodup_cons.mpr ⟨hnotmem, hnd⟩, ?_, ?_⟩
      · intro e' he'
        rcases List.mem_cons.mp he' with he' | he'
        · subst he'
          cases hc : st.cache with
          | none => simp [hc]
          | some d =>
              simp only [hc, Option.getD_some, Option.isSome_some, if_true]
              exact ⟨(hcache d hc).1, Nat.lt_succ_self _⟩
        · have hb := hbound e' he'
          constructor
          · cases st.cache <;> simp <;> omega
          · exact Nat.lt_succ_of_lt hb.2
      · intro c hcc
        simp at hcc

/-- Projections of a hit resolve: the returned object is the existing
proxy and the table is untouched (whatever the cache held). -/
theorem resolve_hit_parts (st : ProxyState) (k : Nat)
    (e : Nat × BinderProxyObj) (hwf : st.WF)
    (hl : st.proxyMap.find? (fun x => x.1 == k) = some e) :
    (javaObjectForIBinder (some (.remoteBinder k)) st).1
      = some (.binderProxy e.2.pid) ∧
    (javaObjectForIBinder (some (.remoteBinder k)) st).2.proxyMap
      = st.proxyMap := by
  cases hc : st.cache with
  | some d => rw [resolve_hit_cached st k d e hwf hl hc]; exact ⟨rfl, rfl⟩
  | none => rw [resolve_hit_uncached st k e hwf hl hc]; exact ⟨rfl, rfl⟩

/-- Projections of a constructing resolve: the returned object is a fresh
proxy and its entry is pushed onto the table. -/
theorem resolve_miss_parts (st : ProxyState) (k : Nat)
    (hl : st.proxyMap.find? (fun x => x.1 == k) = none) :
    (javaObjectForIBinder (some (.remoteBinder k)) st).1
      = some (.binderProxy st.nextPid) ∧
    (javaObjectForIBinder (some (.remoteBinder k)) st).2.proxyMap
      = (k, ⟨st.nextPid, st.cache.getD st.nextDataId⟩) :: st.proxyMap := by
  rw [resolve_miss st k hl]; exact ⟨rfl, rfl⟩

/-- Once handle `h` is bound in the table as its only entry, every later
resolve in a run — of `h` or of any other handle — returns that very
proxy for `h` and leaves exactly one table entry for `h`. -/
theorem resolveSeq_bound (h p : Nat) (hs : List Nat) (st : ProxyState)
    (hwf : st.WF)
    (hfind : ∃ e, st.proxyMap.find? (fun x => x.1 == h) = some e
      ∧ e.2.pid = p)
    (hcount : st.proxyMap.countP (fun x => x.1 == h) = 1) :
    (∀ pr ∈ hs.zip (resolveSeq hs st).1, pr.1 = h →
        pr.2 = some (JObj.binderProxy p)) ∧
    (resolveSeq hs st).2.proxyMap.countP (fun x => x.1 == h) = 1 := by
  induction hs generalizing st with
  | nil => exact ⟨by simp [resolveSeq], hcount⟩
  | cons k rest ih =>
      obtain ⟨e, he, hep⟩ := hfind
      have hwfs := resolve_wf st k hwf
      cases hk : st.proxyMap.find? (fun x => x.1 == k) with
      | some e' =>
          obtain ⟨hout, hmap⟩ := resolve_hit_parts st k e' hwf hk
          have hrest := ih (javaObjectForIBinder (some (.remoteBinder k)) st).2
            hwfs ⟨e, by rw [hmap]; exact he, hep⟩ (by rw [hmap]; exact hcount)
          refine ⟨?_, hrest.2⟩
          intro pr hpr hprh
          simp only [resolveSeq, List.zip_cons_cons, List.mem_cons] at hpr
          rcases hpr with hpr | hpr
          · subst hpr
            simp only at hprh
            subst hprh
            have he' : e' = e := by
              rw [he] at hk
              exact (Option.some.inj hk).symm
            rw [hout, he', hep]
          · exact hrest.1 pr hpr hprh
      | none =>
          obtain ⟨hout, hmap⟩ := resolve_miss_parts st k hk
          have hkh : ¬ k = h := by
            intro hkh
            rw [hkh, he] at hk
            cases hk
          have hfind2 : (javaObjectForIBinder (some (.remoteBinder k)) st).2.proxyMap.find?
              (fun x => x.1 == h) = some e := by
            rw [hmap, List.find?_cons_of_neg _ (by simpa using hkh)]
            exact he
          have hcount2 : (javaObjectForIBinder (some (.remoteBinder k)) st).2.proxyMap.countP
              (fun x => x.1 == h) = 1 := by
            rw [hmap, List.countP_cons_of_neg _ _ (by simpa using hkh)]
            exact hcount
          have hrest := ih (javaObjectForIBinder (some (.remoteBinder k)) st).2
            hwfs ⟨e, hfind2, hep⟩ hcount2
          refine ⟨?_, hrest.2⟩
          intro pr hpr hprh
          simp only [resolveSeq, List.zip_cons_cons, List.mem_cons] at hpr
          rcases hpr with hpr | hpr
          · subst hpr
            exact absurd hprh hkh
          · exact hrest.1 pr hpr hprh

/-- C1: the entire remote path of `javaObjectForIBinder` runs inside the
`gProxyLock` critical section, so any concurrent execution of N resolve
calls is an interleaving sequence of atomic resolves.  For every such
run that resolves handle `h` (from a well-formed state with no live
proxy for `h` yet), all calls on `h` return the one identical proxy
object, and the uniquing table ends up holding exactly one live entry
for `h`. -/
theorem proxy_uniquing (st : ProxyState) (h : Nat) (hs : List Nat)
    (hwf : st.WF)
    (hfresh : st.proxyMap.find? (fun x => x.1 == h) = none)
    (hmem : h ∈ hs) :
    ∃ p, (∀ pr ∈ hs.zip (resolveSeq hs st).1, pr.1 = h →
            pr.2 = some (JObj.binderProxy p)) ∧
         (resolveSeq hs st).2.proxyMap.countP (fun x => x.1 == h) = 1 := by
  induction hs generalizing st with
  | nil => cases hmem
  | cons k rest ih =>
      have hwfs := resolve_wf st k hwf
      by_cases hkh : k = h
      · subst hkh
        obtain ⟨hout, hmap⟩ := resolve_miss_parts st k hfresh
        have hcount0 : st.proxyMap.countP (fun x => x.1 == k) = 0 :=
          List.countP_eq_zero.mpr (List.find?_eq_none.mp hfresh)
        have hfind2 : (javaObjectForIBinder (some (.remoteBinder k)) st).2.proxyMap.find?
            (fun x => x.1 == k)
            = some (k, ⟨st.nextPid, st.cache.getD st.nextDataId⟩) := by
          rw [hmap]
          exact List.find?_cons_of_pos _ (by simp)
        have hcount2 : (javaObjectForIBinder (some (.remoteBinder k)) st).2.proxyMap.countP
            (fun x => x.1 == k) = 1 := by
          rw [hmap, List.countP_cons_of_pos _ _ (by simp), hcount0]
        have hbound := resolveSeq_bound k st.nextPid rest
          (javaObjectForIBinder (some (.remoteBinder k)) st).2 hwfs
          ⟨(k, ⟨st.nextPid, st.cache.getD st.nextDataId⟩), hfind2, rfl⟩
          hcount2
        refine ⟨st.nextPid, ?_, hbound.2⟩
        intro pr hpr hprh
        simp only [resolveSeq, List.zip_cons_cons, List.mem_cons] at hpr
        rcases hpr with hpr | hpr
        · subst hpr
          exact hout
        · exact hbound.1 pr hpr hprh
      · have hmem2 : h ∈ rest := by
          rcases List.mem_cons.mp hmem with hm | hm
          · exact absurd hm.symm hkh
          · exact hm
        have hfresh2 : (javaObjectForIBinder (some (.remoteBinder k)) st).2.proxyMap.find?
            (fun x => x.1 == h) = none := by
          cases hk : st.proxyMap.find? (fun x => x.1 == k) with
          | some e' =>
              rw [(resolve_hit_parts st k e' hwf hk).2]
              exact hfresh
          | none =>
              rw [(resolve_miss_parts st k hk).2,
                List.find?_cons_of_neg _ (by simpa using hkh)]
              exact hfresh
        obtain ⟨p, hall, hcnt⟩ := ih
          (javaObjectForIBinder (some (.remoteBinder k)) st).2 hwfs hfresh2 hmem2
        refine ⟨p, ?_, hcnt⟩
        intro pr hpr hprh
        simp only [resolveSeq, List.zip_cons_cons, List.mem_cons] at hpr
        rcases hpr with hpr | hpr
        · subst hpr
          exact absurd hprh hkh
        · exact hall pr hpr hprh

/-- Witness for `proxy_uniquing`: two back-to-back resolves of handle 7
from the empty state yield one shared proxy and a single table entry. -/
theorem proxy_uniquing_witness :
    ∃ p, (∀ pr ∈ [7, 7].zip (resolveSeq [7, 7] ProxyState.init).1,
            pr.1 = 7 → pr.2 = some (JObj.binderProxy p)) ∧
         (resolveSeq [7, 7] ProxyState.init).2.proxyMap.countP
           (fun x => x.1 == 7) = 1 :=
  proxy_uniquing ProxyState.init 7 [7, 7]
    ⟨by simp [ProxyState.init], by simp [ProxyState.init],
     by simp [ProxyState.init]⟩
    rfl (by simp)

/-- C8: discipline of the single-slot `gNativeDataCache`.  A resolve that
finds an existing proxy with the cache populated leaves the very same
node in the cache and allocates nothing; with the cache empty it
allocates exactly one node which becomes the cache entry.  A resolve
that genuinely constructs a new proxy leaves the cache consumed (empty)
and allocates no replacement — it allocates at all only when the cache
was already empty. -/
theorem scratch_cache_discipline
    (stA stB stC : ProxyState) (hA hB hC d : Nat)
    (eA eB : Nat × BinderProxyObj)
    (hwfA : stA.WF) (hlA : stA.proxyMap.find? (fun x => x.1 == hA) = some eA)
    (hcA : stA.cache = some d)
    (hwfB : stB.WF) (hlB : stB.proxyMap.find? (fun x => x.1 == hB) = some eB)
    (hcB : stB.cache = none)
    (hlC : stC.proxyMap.find? (fun x => x.1 == hC) = none) :
    ((javaObjectForIBinder (some (.remoteBinder hA)) stA).2.cache = some d ∧
     (javaObjectForIBinder (some (.remoteBinder hA)) stA).2.allocCount
       = stA.allocCount) ∧
    ((javaObjectForIBinder (some (.remoteBinder hB)) stB).2.cache
       = some stB.nextDataId ∧
     (javaObjectForIBinder (some (.remoteBinder hB)) stB).2.allocCount
       = stB.allocCount + 1) ∧
    ((javaObjectForIBinder (some (.remoteBinder hC)) stC).2.cache = none ∧
     (javaObjectForIBinder (some (.remoteBinder hC)) stC).2.allocCount
       = stC.allocCount + if stC.cache.isSome then 0 else 1) := by
  refine ⟨?_, ?_, ?_⟩
  · rw [resolve_hit_cached stA hA d eA hwfA hlA hcA]
    exact ⟨hcA, rfl⟩
  · rw [resolve_hit_uncached stB hB eB hwfB hlB hcB]
    exact ⟨rfl, rfl⟩
  · rw [resolve_miss stC hC hlC]
    exact ⟨rfl, rfl⟩

/-- Witness for `scratch_cache_discipline` on three small concrete
states: one hit with a populated cache, one hit with an empty cache, one
genuine construction. -/
theorem scratch_cache_discipline_witness :
    ((javaObjectForIBinder (some (.remoteBinder 3))
        ⟨[(3, ⟨0, 0⟩)], [(0, 3)], some 1, 1, 2, 1, 2⟩).2.cache = some 1 ∧
     (javaObjectForIBinder (some (.remoteBinder 3))
        ⟨[(3, ⟨0, 0⟩)], [(0, 3)], some 1, 1, 2, 1, 2⟩).2.allocCount = 2) ∧
    ((javaObjectForIBinder (some (.remoteBinder 3))
        ⟨[(3, ⟨0, 0⟩)], [(0, 3)], none, 1, 2, 1, 1⟩).2.cache = some 2 ∧
     (javaObjectForIBinder (some (.remoteBinder 3))
        ⟨[(3, ⟨0, 0⟩)], [(0, 3)], none, 1, 2, 1, 1⟩).2.allocCount = 1 + 1) ∧
    ((javaObjectForIBinder (some (.remoteBinder 9))
        ⟨[(3, ⟨0, 0⟩)], [(0, 3)], some 1, 1, 2, 1, 2⟩).2.cache = none ∧
     (javaObjectForIBinder (some (.remoteBinder 9))
        ⟨[(3, ⟨0, 0⟩)], [(0, 3)], some 1, 1, 2, 1, 2⟩).2.allocCount
       = 2 + if (some 1 : Option Nat).isSome then 0 else 1) :=
  scratch_cache_discipline
    ⟨[(3, ⟨0, 0⟩)], [(0, 3)], some 1, 1, 2, 1, 2⟩
    ⟨[(3, ⟨0, 0⟩)], [(0, 3)], none, 1, 2, 1, 1⟩
    ⟨[(3, ⟨0, 0⟩)], [(0, 3)], some 1, 1, 2, 1, 2⟩
    3 3 9 1 (3, ⟨0, 0⟩) (3, ⟨0, 0⟩)
    ⟨by simp, by simp, by simp⟩ rfl rfl
    ⟨by simp, by simp, by simp⟩ rfl rfl
    rfl

